/- Verification development for the lambda-java-template repository.

   The repository contains three thin cloud-function handlers:
   - src/terraform/scripts/ephemeral-cleanup.py : an age-gated resource reaper
     (age oracle + four best-effort delete sweepers + a coordinator),
   - src/lambda-functions/authorizer.py : an API-key gatekeeper,
   - src/lambda-functions/event_processor.py : an audit-log writer.

   The code is embedded shallowly: every cloud-provider call a handler makes is a
   field of an environment record, returning Except String to model the call
   either succeeding with a value or raising an exception with a message.
   Python try/except blocks become matches on those Except values, placed
   exactly where the source catches.  Python float arithmetic on ages is
   modelled with exact rationals.  Identifiers follow the source names except
   where the name had to be altered to satisfy the build (for instance the
   source's environment_prefix variable is rendered env_pfx below). -/
import Mathlib

/-- Boolean test that the first list is an initial segment of the second,
character by character.  Used to embed Python's str.startswith. -/
def charsStart : List Char → List Char → Bool
  | [], _ => true
  | _ :: _, [] => false
  | p :: ps, c :: cs => p = c && charsStart ps cs

/-- Embeds Python's s.startswith(p). -/
def pyStartsWith (s p : String) : Bool := charsStart p.data s.data

/-- Boolean test that pat occurs as a contiguous run inside the second list. -/
def charsContain (pat : List Char) : List Char → Bool
  | [] => pat.isEmpty
  | c :: cs => charsStart pat (c :: cs) || charsContain pat cs

/-- Embeds Python's membership test `p in s` on strings (substring match). -/
def strContains (s pat : String) : Bool := charsContain pat.data s.data

/-- True when an Except value is the raising branch. -/
def isErr {α : Type} (r : Except String α) : Bool :=
  match r with
  | .ok _ => false
  | .error _ => true

/-- One entry appended to results['resources_cleaned'] by a sweeper:
a dict with keys 'type', 'name', 'status' and, on failure, 'error'. -/
structure ResourceOutcome where
  type : String
  name : String
  status : String
  error : Option String
deriving DecidableEq

/-- Trace of the provider calls the object-store sweeper issues for one
bucket, recorded so that theorems can speak about which deletions were
attempted (the source only side-effects through these calls). -/
inductive S3Action where
  | listObjectsCall (bucket : String)
  | deleteObjectsCall (bucket : String) (keys : List String)
  | deleteBucketCall (bucket : String)
deriving DecidableEq

/-- The cloud-provider surface the cleanup lambda touches, one field per
boto3 call it performs.  Except String models a call that can raise.
describeTable returns the table's CreationDateTime and now is
datetime.utcnow(), both as epoch seconds (exact rationals, standing for the
real-valued arithmetic the source performs on floats).  now_iso is
datetime.utcnow().isoformat(), used for the report timestamp. -/
structure AwsEnv where
  listTables : Except String (List String)
  describeTable : String → Except String ℚ
  now : ℚ
  now_iso : String
  deleteTable : String → Except String Unit
  listBuckets : Except String (List String)
  listObjects : String → Except String (List String)
  deleteBucket : String → Except String Unit
  listBuses : Except String (List String)
  deleteBus : String → Except String Unit
  logPages : Except String (List (List String))
  deleteLogGroup : String → Except String Unit

/-- Embeds should_cleanup_environment (ephemeral-cleanup.py lines 81-111).
The whole body sits in one try/except that returns True on any raise, so
every raising branch of the inventory calls maps to true here.  The source
filters the listed tables with table.startswith, takes the first match,
and compares age_hours = (now - creation).total_seconds()/3600 against the
integer threshold with >=. -/
def should_cleanup_environment (env : AwsEnv) (env_pfx : String) (auto_destroy_hours : Int) : Bool :=
  match env.listTables with
  | .error _ => true
  | .ok tables =>
    match tables.filter (fun t => pyStartsWith t env_pfx) with
    | [] => true
    | table_name :: _ =>
      match env.describeTable table_name with
      | .error _ => true
      | .ok creation_time =>
        decide ((env.now - creation_time) / 3600 ≥ (auto_destroy_hours : ℚ))

/-- One iteration of a single-call delete loop (ephemeral-cleanup.py lines
123-139, and the same shape at 200-216 and 234-250): try the delete, append
status 'deleted' on success and status 'error' with the message on a raise. -/
def delete_outcome (rtype : String) (del : String → Except String Unit) (n : String) : ResourceOutcome :=
  match del n with
  | .ok _ => { type := rtype, name := n, status := "deleted", error := none }
  | .error e => { type := rtype, name := n, status := "error", error := some e }

/-- Embeds cleanup_dynamodb_tables (lines 113-142): list tables, filter by
startswith, delete each in listing order appending one outcome per attempt;
a raise of the listing call is swallowed and contributes zero outcomes. -/
def cleanup_dynamodb_tables (env : AwsEnv) (env_pfx : String) : List ResourceOutcome :=
  match env.listTables with
  | .error _ => []
  | .ok tables =>
    (tables.filter (fun t => pyStartsWith t env_pfx)).map
      (delete_outcome "dynamodb_table" env.deleteTable)

/-- Provider calls of the object phase for one bucket (lines 158-168): list
the objects, and when the listing succeeds with a non-empty Contents, issue
one delete_objects call for those keys.  Raises inside this phase are
swallowed by the inner try/except, so only the trace records them. -/
def object_phase (env : AwsEnv) (bucket_name : String) : List S3Action :=
  match env.listObjects bucket_name with
  | .error _ => [S3Action.listObjectsCall bucket_name]
  | .ok keys =>
    if keys = [] then [S3Action.listObjectsCall bucket_name]
    else [S3Action.listObjectsCall bucket_name, S3Action.deleteObjectsCall bucket_name keys]

/-- One iteration of the bucket loop (lines 154-185): run the object phase
with its errors swallowed, then always attempt delete_bucket; the recorded
outcome depends only on that final call. -/
def sweepBucket (env : AwsEnv) (bucket_name : String) : ResourceOutcome × List S3Action :=
  let objActs := object_phase env bucket_name
  match env.deleteBucket bucket_name with
  | .ok _ =>
    ({ type := "s3_bucket", name := bucket_name, status := "deleted", error := none },
     objActs ++ [S3Action.deleteBucketCall bucket_name])
  | .error e =>
    ({ type := "s3_bucket", name := bucket_name, status := "error", error := some e },
     objActs ++ [S3Action.deleteBucketCall bucket_name])

/-- Embeds cleanup_s3_buckets (lines 144-188): filter bucket names by
startswith and sweep each, returning the outcomes and the full call trace. -/
def cleanup_s3_buckets (env : AwsEnv) (env_pfx : String) : List ResourceOutcome × List S3Action :=
  match env.listBuckets with
  | .error _ => ([], [])
  | .ok buckets =>
    let env_buckets := buckets.filter (fun b => pyStartsWith b env_pfx)
    (env_buckets.map (fun b => (sweepBucket env b).1),
     (env_buckets.map (fun b => (sweepBucket env b).2)).flatten)

/-- Embeds cleanup_eventbridge_buses (lines 190-219): same shape as the
table sweeper with type 'eventbridge_bus'. -/
def cleanup_eventbridge_buses (env : AwsEnv) (env_pfx : String) : List ResourceOutcome :=
  match env.listBuses with
  | .error _ => []
  | .ok buses =>
    (buses.filter (fun b => pyStartsWith b env_pfx)).map
      (delete_outcome "eventbridge_bus" env.deleteBus)

/-- Embeds cleanup_cloudwatch_logs (lines 221-253): pages of log groups from
the paginator, filtered by substring membership (env_pfx in name) rather than
startswith, each match deleted with one outcome appended. -/
def cleanup_cloudwatch_logs (env : AwsEnv) (env_pfx : String) : List ResourceOutcome :=
  match env.logPages with
  | .error _ => []
  | .ok pages =>
    (pages.map (fun page =>
      (page.filter (fun n => strContains n env_pfx)).map
        (delete_outcome "cloudwatch_log_group" env.deleteLogGroup))).flatten

/-- The cleanup_results dict (lines 31-36) plus the keys added later: action,
reason (skipped path), error (failed path), status (completed path).  The
source key environment_prefix is rendered env_pfx. -/
structure CleanupReport where
  env_pfx : String
  auto_destroy_hours : Int
  cleanup_timestamp : String
  resources_cleaned : List ResourceOutcome
  action : Option String
  reason : Option String
  error : Option String
  status : Option String
deriving DecidableEq

/-- Body of the handler's HTTP-shaped result: either the bare error object
of the 400 path or a serialized CleanupReport. -/
inductive HandlerBody where
  | errorObj (error : String)
  | report (r : CleanupReport)
deriving DecidableEq

/-- The handler's return value: statusCode plus JSON body. -/
structure HandlerResult where
  statusCode : Nat
  body : HandlerBody
deriving DecidableEq

/-- The four sweepers run sequentially, outcomes concatenated in the fixed
order tables, buckets, buses, log groups (lines 48-58). -/
def run_sweepers (env : AwsEnv) (env_pfx : String) : List ResourceOutcome :=
  cleanup_dynamodb_tables env env_pfx ++ (cleanup_s3_buckets env env_pfx).1 ++
    cleanup_eventbridge_buses env env_pfx ++ cleanup_cloudwatch_logs env env_pfx

/-- Embeds lambda_handler of ephemeral-cleanup.py (lines 15-79).  The empty
ENVIRONMENT_PREFIX check precedes everything else; the age check then either
returns the skipped report or the sweep runs to the completed report.  The
source's outer except path (statusCode 500) is unreachable in this embedding
because every modelled provider failure is already caught inside the oracle
and the sweepers, exactly as in the source. -/
def lambda_handler (env : AwsEnv) (env_pfx : String) (auto_destroy_hours : Int) : HandlerResult :=
  if env_pfx = "" then
    { statusCode := 400, body := HandlerBody.errorObj "ENVIRONMENT_PREFIX not configured" }
  else if should_cleanup_environment env env_pfx auto_destroy_hours = false then
    { statusCode := 200, body := HandlerBody.report
        { env_pfx := env_pfx, auto_destroy_hours := auto_destroy_hours,
          cleanup_timestamp := env.now_iso, resources_cleaned := [],
          action := some "skipped",
          reason := some "Environment not old enough for cleanup",
          error := none, status := none } }
  else
    { statusCode := 200, body := HandlerBody.report
        { env_pfx := env_pfx, auto_destroy_hours := auto_destroy_hours,
          cleanup_timestamp := env.now_iso,
          resources_cleaned := run_sweepers env env_pfx,
          action := some "completed", reason := none, error := none,
          status := some "success" } }

/-- Value found at the event's 'headers' key in authorizer.py: either a
genuine string dict, or a value of another shape on which the .get calls of
line 18 raise (the malformed case carries the exception text). -/
inductive HeadersVal where
  | dict (m : List (String × String))
  | malformed (desc : String)
deriving DecidableEq

/-- An authorizer input event, reduced to the only key the handler reads:
none models an event without a 'headers' key (event.get defaults to the
empty dict). -/
structure AuthEvent where
  headers : Option HeadersVal
deriving DecidableEq

/-- The authorizer's response dict: isAuthorized plus the context map. -/
structure AuthResponse where
  isAuthorized : Bool
  context : List (String × String)
deriving DecidableEq

/-- Embeds Python's `a or b` on two optional strings: a None or empty left
operand falls through to the right operand. -/
def pyOrStr (a b : Option String) : Option String :=
  match a with
  | some v => if v = "" then b else some v
  | none => b

/-- Embeds lines 17-29 of authorizer.py on an in-range headers dict:
api_key = headers.get('x-api-key') or headers.get('X-API-Key'), authorized
iff api_key is not None and len(api_key) > 0, context carries the key when
authorized and the literal 'invalid' otherwise. -/
def authorize_headers (headers : List (String × String)) : AuthResponse :=
  let api_key := pyOrStr (headers.lookup "x-api-key") (headers.lookup "X-API-Key")
  let is_authorized :=
    match api_key with
    | some v => decide (0 < v.length)
    | none => false
  { isAuthorized := is_authorized,
    context := [("apiKey", if is_authorized then api_key.getD "" else "invalid")] }

/-- The try block of authorizer.py (lines 13-32): event.get('headers', {})
never raises, but the subsequent .get calls raise when the headers value is
not a dict; that raise is modelled as the error branch. -/
def authorizer_body (ev : AuthEvent) : Except String AuthResponse :=
  match ev.headers with
  | none => Except.ok (authorize_headers [])
  | some (HeadersVal.dict m) => Except.ok (authorize_headers m)
  | some (HeadersVal.malformed d) => Except.error d

/-- Embeds the full lambda_handler of authorizer.py (lines 8-41): any raise
inside the try block is caught and mapped to the fail-closed response. -/
def authorizer_lambda_handler (ev : AuthEvent) : AuthResponse :=
  match authorizer_body ev with
  | .ok r => r
  | .error _ => { isAuthorized := false, context := [("error", "Authorization failed")] }

/-- One audit record as written by event_processor.py (lines 37-44). -/
structure AuditEntry where
  event_id : String
  timestamp : String
  event_type : String
  source : String
  detail : String
  ttl : Int
deriving DecidableEq

/-- Environment of the event processor: the AUDIT_TABLE_NAME variable, the
put_item call (which can raise), the current instant as isoformat string and
as whole epoch seconds, and the uuid4 value generated for this invocation. -/
structure AuditEnv where
  audit_table_name : Option String
  put_item : AuditEntry → Except String Unit
  now_iso : String
  now_epoch : Int
  fresh_uuid : String

/-- Body of the event processor's result: the bare 'Configuration error'
string of the 500 config path, the success JSON with message and eventId, or
the failure JSON with error and message. -/
inductive AuditBody where
  | plain (s : String)
  | success (message eventId : String)
  | failure (error message : String)
deriving DecidableEq

/-- The audit_entry dict built at lines 37-44 of event_processor.py:
event_id is the fresh uuid4, event_type and source default to 'Unknown'
via .get, detail is the json.dumps of the detail value, and ttl is the
current epoch second plus 90 days. -/
def audit_entry_of (env : AuditEnv) (detail_type source : Option String) (detail_json : String) : AuditEntry :=
  { event_id := env.fresh_uuid,
    timestamp := env.now_iso,
    event_type := detail_type.getD "Unknown",
    source := source.getD "Unknown",
    detail := detail_json,
    ttl := env.now_epoch + 90 * 24 * 60 * 60 }

/-- Embeds lambda_handler of event_processor.py (lines 13-67).  Returns the
HTTP-shaped result together with the list of records written to the table
(empty when put_item raises, since the write did not complete).  A missing
or empty AUDIT_TABLE_NAME short-circuits to the 500 configuration error. -/
def event_processor_handler (env : AuditEnv) (detail_type source : Option String) (detail_json : String) :
    (Nat × AuditBody) × List AuditEntry :=
  match env.audit_table_name with
  | none => ((500, AuditBody.plain "Configuration error"), [])
  | some t =>
    if t = "" then ((500, AuditBody.plain "Configuration error"), [])
    else
      let entry := audit_entry_of env detail_type source detail_json
      match env.put_item entry with
      | .ok _ => ((200, AuditBody.success "Event processed successfully" entry.event_id), [entry])
      | .error e => ((500, AuditBody.failure "Event processing failed" e), [])

/-- Concrete environment where every provider call succeeds and every
inventory is empty; the environments below override what they exercise. -/
def envBase : AwsEnv :=
  { listTables := Except.ok [],
    describeTable := fun _ => Except.error "ResourceNotFoundException",
    now := 0,
    now_iso := "2026-10-12T00:00:00",
    deleteTable := fun _ => Except.ok (),
    listBuckets := Except.ok [],
    listObjects := fun _ => Except.ok [],
    deleteBucket := fun _ => Except.ok (),
    listBuses := Except.ok [],
    deleteBus := fun _ => Except.ok (),
    logPages := Except.ok [],
    deleteLogGroup := fun _ => Except.ok () }

/-- Environment with one matching table whose describe call succeeds. -/
def envAged : AwsEnv :=
  { envBase with
    listTables := Except.ok ["p-table-main", "other"],
    describeTable := fun t =>
      if t = "p-table-main" then Except.ok 0 else Except.error "ResourceNotFoundException" }

/-- Environment whose table listing raises. -/
def envListFail : AwsEnv :=
  { envBase with listTables := Except.error "AccessDenied" }

/-- Environment whose table listing succeeds but whose describe call raises. -/
def envDescFail : AwsEnv :=
  { envBase with
    listTables := Except.ok ["p-t1"],
    describeTable := fun _ => Except.error "Throttling" }

/-- Environment with three matching tables of which exactly one delete raises. -/
def envOneFail : AwsEnv :=
  { envBase with
    listTables := Except.ok ["p-a", "p-b", "q-c", "p-c"],
    deleteTable := fun t =>
      if t = "p-b" then Except.error "ResourceInUseException" else Except.ok () }

/-- Environment with one matching and one non-matching table name, and one
log-group page holding one name that embeds the configured value mid-string
and one name that does not contain it. -/
def envFilterW : AwsEnv :=
  { envBase with
    listTables := Except.ok ["p-table", "zzz"],
    logPages := Except.ok [["/aws/lambda/p-fn", "other"]] }

/-- Environment whose only matching table is one hour old while the
threshold used with it below is 24 hours. -/
def envYoung : AwsEnv :=
  { envBase with
    listTables := Except.ok ["p-t"],
    describeTable := fun _ => Except.ok 0,
    now := 3600 }

/-- Environment with one matching bucket whose object listing raises while
the bucket delete itself succeeds. -/
def envObjFail : AwsEnv :=
  { envBase with
    listBuckets := Except.ok ["p-bucket"],
    listObjects := fun _ => Except.error "AccessDenied" }

/-- Audit-writer environment with the table configured and a put_item call
that succeeds on every record. -/
def envAuditW : AuditEnv :=
  { audit_table_name := some "audit-table",
    put_item := fun _ => Except.ok (),
    now_iso := "2026-10-12T00:00:00+00:00",
    now_epoch := 1760227200,
    fresh_uuid := "00000000-0000-4000-8000-000000000000" }

/-- A string has positive length exactly when it is not the empty string. -/
theorem string_length_pos_iff (v : String) : 0 < v.length ↔ v ≠ "" := by
  cases v with
  | mk data =>
    cases data with
    | nil => simp [String.length]
    | cons c cs =>
      simp only [String.length]
      constructor
      · intro _ h
        have hd : (String.mk (c :: cs)).data = ("" : String).data := by rw [h]
        simp at hd
      · intro _
        simp

/-- The outcome a single-call delete loop records carries the name it was
given, whichever way the delete call went. -/
theorem delete_outcome_name (rtype : String) (del : String → Except String Unit) (n : String) :
    (delete_outcome rtype del n).name = n := by
  cases h : del n <;> simp [delete_outcome, h]

/-- The outcome a single-call delete loop records carries the type it was
given, whichever way the delete call went. -/
theorem delete_outcome_type (rtype : String) (del : String → Except String Unit) (n : String) :
    (delete_outcome rtype del n).type = rtype := by
  cases h : del n <;> simp [delete_outcome, h]

/-- The recorded status is 'error' exactly on the raising branch of the
delete call and 'deleted' otherwise. -/
theorem delete_outcome_status (rtype : String) (del : String → Except String Unit) (n : String) :
    (delete_outcome rtype del n).status = if isErr (del n) then "error" else "deleted" := by
  cases h : del n <;> simp [delete_outcome, isErr, h]

/-- The bucket sweep's recorded outcome carries the bucket name, whichever
way the bucket delete went. -/
theorem sweepBucket_fst_name (env : AwsEnv) (bucket_name : String) :
    (sweepBucket env bucket_name).1.name = bucket_name := by
  cases h : env.deleteBucket bucket_name <;> simp [sweepBucket, h]

/-- C1: for every configured value and threshold, should_cleanup_environment
returns true when the successful table listing has no name starting with the
configured value; otherwise, when describing the first match succeeds, it
returns true exactly when the elapsed age in hours is at least the threshold,
the boundary age equal to threshold included. -/
theorem age_oracle_threshold (env : AwsEnv) (env_pfx : String) (auto_destroy_hours : Int)
    (tables : List String) (hlist : env.listTables = Except.ok tables) :
    (tables.filter (fun t => pyStartsWith t env_pfx) = [] →
      should_cleanup_environment env env_pfx auto_destroy_hours = true) ∧
    (∀ table_name rest creation_time,
      tables.filter (fun t => pyStartsWith t env_pfx) = table_name :: rest →
      env.describeTable table_name = Except.ok creation_time →
      (should_cleanup_environment env env_pfx auto_destroy_hours = true ↔
        (env.now - creation_time) / 3600 ≥ (auto_destroy_hours : ℚ))) := by
  constructor
  · intro h
    simp [should_cleanup_environment, hlist, h]
  · intro table_name rest creation_time hfil hdesc
    simp [should_cleanup_environment, hlist, hfil, hdesc]

/-- C1 witness: in envAged the listing succeeds, the first (and only) match
is p-table-main with creation time 0, and the oracle decides true exactly at
age at least the threshold. -/
theorem age_oracle_threshold_witness :
    (envAged.listTables = Except.ok ["p-table-main", "other"]) ∧
    (["p-table-main", "other"].filter (fun t => pyStartsWith t "p-") = ["p-table-main"]) ∧
    (envAged.describeTable "p-table-main" = Except.ok 0) ∧
    (should_cleanup_environment envAged "p-" 24 = true ↔
      (envAged.now - 0) / 3600 ≥ ((24 : Int) : ℚ)) := by
  refine ⟨rfl, by decide, rfl, ?_⟩
  exact (age_oracle_threshold envAged "p-" 24 ["p-table-main", "other"] rfl).2
    "p-table-main" [] 0 (by decide) rfl

/-- C2: should_cleanup_environment returns true (fail-open) whenever the
table listing raises, and whenever describing the first matching table
raises, for every configured value and threshold. -/
theorem age_oracle_fail_open (env : AwsEnv) (env_pfx : String) (auto_destroy_hours : Int) :
    (∀ e, env.listTables = Except.error e →
      should_cleanup_environment env env_pfx auto_destroy_hours = true) ∧
    (∀ tables table_name rest e,
      env.listTables = Except.ok tables →
      tables.filter (fun t => pyStartsWith t env_pfx) = table_name :: rest →
      env.describeTable table_name = Except.error e →
      should_cleanup_environment env env_pfx auto_destroy_hours = true) := by
  constructor
  · intro e h
    simp [should_cleanup_environment, h]
  · intro tables table_name rest e hlist hfil hdesc
    simp [should_cleanup_environment, hlist, hfil, hdesc]

/-- C2 witness: the oracle answers true both in envListFail, whose listing
raises, and in envDescFail, whose describe call raises on the first match. -/
theorem age_oracle_fail_open_witness :
    (envListFail.listTables = Except.error "AccessDenied") ∧
    should_cleanup_environment envListFail "p-" 24 = true ∧
    (envDescFail.listTables = Except.ok ["p-t1"]) ∧
    (envDescFail.describeTable "p-t1" = Except.error "Throttling") ∧
    should_cleanup_environment envDescFail "p-" 24 = true :=
  ⟨rfl, (age_oracle_fail_open envListFail "p-" 24).1 "AccessDenied" rfl, rfl, rfl,
   (age_oracle_fail_open envDescFail "p-" 24).2 ["p-t1"] "p-t1" [] "Throttling" rfl
     (by decide) rfl⟩

/-- C6: with an empty configured value the handler returns statusCode 400
with the bare configuration-error body, for every environment and threshold,
hence before any inventory call and without building a report. -/
theorem coordinator_empty_config (env : AwsEnv) (auto_destroy_hours : Int) :
    lambda_handler env "" auto_destroy_hours =
      { statusCode := 400,
        body := HandlerBody.errorObj "ENVIRONMENT_PREFIX not configured" } := by
  simp [lambda_handler]

/-- Counting the failures of a boolean test is counting the complement of
its successes. -/
theorem countP_not_bool {α : Type} (p : α → Bool) (l : List α) :
    l.countP (fun a => !p a) = l.length - l.countP p := by
  induction l with
  | nil => rfl
  | cons a l ih =>
    have hle := List.countP_le_length p (l := l)
    cases h : p a <;> (simp [List.countP_cons, h, ih]; try omega)

/-- C3: for a successful listing, the table sweeper records exactly one
outcome per matching name, in listing order, each outcome 'deleted' with no
error field on a successful delete and 'error' with the captured message on
a raise; with exactly one raising delete among the N matches the sweep still
covers all N names, yielding exactly 1 'error' and N-1 'deleted'. -/
theorem table_sweeper_per_item (env : AwsEnv) (env_pfx : String) (tables : List String)
    (hlist : env.listTables = Except.ok tables)
    (hone : (tables.filter (fun t => pyStartsWith t env_pfx)).countP
      (fun t => isErr (env.deleteTable t)) = 1) :
    (cleanup_dynamodb_tables env env_pfx).length =
      (tables.filter (fun t => pyStartsWith t env_pfx)).length ∧
    (cleanup_dynamodb_tables env env_pfx).map (fun o => o.name) =
      tables.filter (fun t => pyStartsWith t env_pfx) ∧
    (cleanup_dynamodb_tables env env_pfx).countP (fun o => o.status == "error") = 1 ∧
    (cleanup_dynamodb_tables env env_pfx).countP (fun o => o.status == "deleted") =
      (tables.filter (fun t => pyStartsWith t env_pfx)).length - 1 ∧
    (∀ o ∈ cleanup_dynamodb_tables env env_pfx,
      match env.deleteTable o.name with
      | .ok _ => o.status = "deleted" ∧ o.error = none
      | .error e => o.status = "error" ∧ o.error = some e) := by
  have houts : cleanup_dynamodb_tables env env_pfx =
      (tables.filter (fun t => pyStartsWith t env_pfx)).map
        (delete_outcome "dynamodb_table" env.deleteTable) := by
    simp [cleanup_dynamodb_tables, hlist]
  have herrfun : ∀ t,
      (((delete_outcome "dynamodb_table" env.deleteTable t).status == "error") = true ↔
        isErr (env.deleteTable t) = true) := by
    intro t
    cases h : env.deleteTable t <;> simp [delete_outcome, h, isErr]
  have hdelfun : ∀ t,
      (((delete_outcome "dynamodb_table" env.deleteTable t).status == "deleted") = true ↔
        (!isErr (env.deleteTable t)) = true) := by
    intro t
    cases h : env.deleteTable t <;> simp [delete_outcome, h, isErr]
  refine ⟨?_, ?_, ?_, ?_, ?_⟩
  · rw [houts, List.length_map]
  · rw [houts, List.map_map]
    have hcomp : ((fun o : ResourceOutcome => o.name) ∘
        delete_outcome "dynamodb_table" env.deleteTable) = fun t => t := by
      funext t
      exact delete_outcome_name _ _ t
    rw [hcomp, List.map_id']
  · rw [houts, List.countP_map]
    calc (tables.filter (fun t => pyStartsWith t env_pfx)).countP
          ((fun o : ResourceOutcome => o.status == "error") ∘
            delete_outcome "dynamodb_table" env.deleteTable)
        = (tables.filter (fun t => pyStartsWith t env_pfx)).countP
            (fun t => isErr (env.deleteTable t)) :=
          List.countP_congr (fun t _ => herrfun t)
      _ = 1 := hone
  · rw [houts, List.countP_map]
    calc (tables.filter (fun t => pyStartsWith t env_pfx)).countP
          ((fun o : ResourceOutcome => o.status == "deleted") ∘
            delete_outcome "dynamodb_table" env.deleteTable)
        = (tables.filter (fun t => pyStartsWith t env_pfx)).countP
            (fun t => !isErr (env.deleteTable t)) :=
          List.countP_congr (fun t _ => hdelfun t)
      _ = (tables.filter (fun t => pyStartsWith t env_pfx)).length -
            (tables.filter (fun t => pyStartsWith t env_pfx)).countP
              (fun t => isErr (env.deleteTable t)) :=
          countP_not_bool _ _
      _ = (tables.filter (fun t => pyStartsWith t env_pfx)).length - 1 := by rw [hone]
  · intro o ho
    rw [houts] at ho
    rcases List.mem_map.1 ho with ⟨t, ht, rfl⟩
    rw [delete_outcome_name]
    cases h : env.deleteTable t <;> simp [delete_outcome, h]

/-- C3 witness: in envOneFail three of the four listed tables match, the
delete of p-b raises and the other two succeed, and the sweep yields three
outcomes with exactly one 'error' and two 'deleted'. -/
theorem table_sweeper_per_item_witness :
    ((["p-a", "p-b", "q-c", "p-c"].filter (fun t => pyStartsWith t "p-")).countP
      (fun t => isErr (envOneFail.deleteTable t)) = 1) ∧
    (cleanup_dynamodb_tables envOneFail "p-").length = 3 ∧
    (cleanup_dynamodb_tables envOneFail "p-").countP (fun o => o.status == "error") = 1 ∧
    (cleanup_dynamodb_tables envOneFail "p-").countP (fun o => o.status == "deleted") = 2 := by
  have h := table_sweeper_per_item envOneFail "p-" ["p-a", "p-b", "q-c", "p-c"] rfl (by decide)
  refine ⟨by decide, ?_, h.2.2.1, ?_⟩
  · rw [h.1]; decide
  · rw [h.2.2.2.1]; decide

/-- Mapping a single-call delete loop over a list of names and reading the
recorded names back returns exactly that list. -/
theorem map_name_delete_outcome (rtype : String) (del : String → Except String Unit)
    (ms : List String) :
    (ms.map (delete_outcome rtype del)).map (fun o => o.name) = ms := by
  rw [List.map_map]
  have hcomp : ((fun o : ResourceOutcome => o.name) ∘ delete_outcome rtype del) =
      fun t => t := by
    funext t
    exact delete_outcome_name _ _ t
  rw [hcomp, List.map_id']

/-- C4: under successful listings, the names the table, bucket and bus
sweepers record are exactly the listed names starting with the configured
value (so an outcome for every startswith match and only for those), while
the names the log-group sweeper records are exactly the listed names
containing the configured value anywhere as a substring; in particular every
listed log group whose name contains the value gets an outcome. -/
theorem sweepers_respect_name_filters (env : AwsEnv) (env_pfx : String)
    (tables buckets buses : List String) (pages : List (List String))
    (htab : env.listTables = Except.ok tables)
    (hbuck : env.listBuckets = Except.ok buckets)
    (hbus : env.listBuses = Except.ok buses)
    (hlog : env.logPages = Except.ok pages) :
    (cleanup_dynamodb_tables env env_pfx).map (fun o => o.name) =
      tables.filter (fun t => pyStartsWith t env_pfx) ∧
    ((cleanup_s3_buckets env env_pfx).1).map (fun o => o.name) =
      buckets.filter (fun b => pyStartsWith b env_pfx) ∧
    (cleanup_eventbridge_buses env env_pfx).map (fun o => o.name) =
      buses.filter (fun b => pyStartsWith b env_pfx) ∧
    (cleanup_cloudwatch_logs env env_pfx).map (fun o => o.name) =
      (pages.map (fun page => page.filter (fun n => strContains n env_pfx))).flatten ∧
    (∀ n ∈ pages.flatten, strContains n env_pfx = true →
      n ∈ (cleanup_cloudwatch_logs env env_pfx).map (fun o => o.name)) := by
  have hlogeq : (cleanup_cloudwatch_logs env env_pfx).map (fun o => o.name) =
      (pages.map (fun page => page.filter (fun n => strContains n env_pfx))).flatten := by
    simp only [cleanup_cloudwatch_logs, hlog]
    rw [List.map_flatten, List.map_map]
    congr 1
    apply List.map_congr_left
    intro page _
    exact map_name_delete_outcome _ _ _
  refine ⟨?_, ?_, ?_, hlogeq, ?_⟩
  · simp only [cleanup_dynamodb_tables, htab]
    exact map_name_delete_outcome _ _ _
  · simp only [cleanup_s3_buckets, hbuck]
    rw [List.map_map]
    have hcomp : ((fun o : ResourceOutcome => o.name) ∘ fun b => (sweepBucket env b).1) =
        fun b => b := by
      funext b
      exact sweepBucket_fst_name env b
    rw [hcomp, List.map_id']
  · simp only [cleanup_eventbridge_buses, hbus]
    exact map_name_delete_outcome _ _ _
  · intro n hn hc
    rw [hlogeq]
    rcases List.mem_flatten.1 hn with ⟨page, hpage, hnpage⟩
    exact List.mem_flatten.2
      ⟨page.filter (fun m => strContains m env_pfx),
       List.mem_map.2 ⟨page, hpage, rfl⟩,
       List.mem_filter.2 ⟨hnpage, hc⟩⟩

/-- C4 witness: in envFilterW the table sweeper records exactly the one
startswith match p-table, and the log sweeper records exactly the one
substring match, the mid-string name /aws/lambda/p-fn, which in particular
receives an outcome. -/
theorem sweepers_respect_name_filters_witness :
    (envFilterW.listTables = Except.ok ["p-table", "zzz"]) ∧
    (envFilterW.logPages = Except.ok [["/aws/lambda/p-fn", "other"]]) ∧
    (cleanup_dynamodb_tables envFilterW "p-").map (fun o => o.name) = ["p-table"] ∧
    (cleanup_cloudwatch_logs envFilterW "p-").map (fun o => o.name) = ["/aws/lambda/p-fn"] ∧
    "/aws/lambda/p-fn" ∈ (cleanup_cloudwatch_logs envFilterW "p-").map (fun o => o.name) := by
  have h := sweepers_respect_name_filters envFilterW "p-" ["p-table", "zzz"] [] []
    [["/aws/lambda/p-fn", "other"]] rfl rfl rfl rfl
  refine ⟨rfl, rfl, ?_, ?_, ?_⟩
  · rw [h.1]
    decide
  · rw [h.2.2.2.1]
    decide
  · exact h.2.2.2.2 "/aws/lambda/p-fn" (by decide) (by decide)

/-- C5: whenever the age oracle answers false and the configured value is
non-empty, the handler returns immediately with statusCode 200 and the
skipped report: action 'skipped', the fixed non-empty reason, and an empty
resources_cleaned sequence, independent of every sweeper-side field. -/
theorem coordinator_skips_when_young (env : AwsEnv) (env_pfx : String) (auto_destroy_hours : Int)
    (hp : env_pfx ≠ "")
    (hyoung : should_cleanup_environment env env_pfx auto_destroy_hours = false) :
    lambda_handler env env_pfx auto_destroy_hours =
      { statusCode := 200, body := HandlerBody.report
          { env_pfx := env_pfx, auto_destroy_hours := auto_destroy_hours,
            cleanup_timestamp := env.now_iso, resources_cleaned := [],
            action := some "skipped",
            reason := some "Environment not old enough for cleanup",
            error := none, status := none } } ∧
    ("Environment not old enough for cleanup" ≠ "") := by
  refine ⟨?_, by decide⟩
  simp [lambda_handler, hp, hyoung]

/-- C5 witness: in envYoung the only matching table is one hour old against
a 24-hour threshold, so the oracle answers false and the handler returns the
skipped report with no outcomes. -/
theorem coordinator_skips_when_young_witness :
    ("p-" ≠ "") ∧
    should_cleanup_environment envYoung "p-" 24 = false ∧
    lambda_handler envYoung "p-" 24 =
      { statusCode := 200, body := HandlerBody.report
          { env_pfx := "p-", auto_destroy_hours := 24,
            cleanup_timestamp := envYoung.now_iso, resources_cleaned := [],
            action := some "skipped",
            reason := some "Environment not old enough for cleanup",
            error := none, status := none } } := by
  have hy : should_cleanup_environment envYoung "p-" 24 = false := by
    have hred : should_cleanup_environment envYoung "p-" 24 =
        decide (((3600 : ℚ) - 0) / 3600 ≥ ((24 : Int) : ℚ)) := rfl
    rw [hred]
    norm_num
  exact ⟨by decide, hy, (coordinator_skips_when_young envYoung "p-" 24 (by decide) hy).1⟩

/-- C7: for every matching bucket, the bucket deletion is attempted no
matter how the swallowed object phase went (the trace always holds the
delete_bucket call); when the bucket deletion succeeds the recorded outcome
is 'deleted' with no error field; and the recorded outcome agrees between
any two environments with the same delete_bucket behaviour, so an
object-phase failure is invisible in the report. -/
theorem bucket_two_phase (env : AwsEnv) (bucket_name : String) :
    S3Action.deleteBucketCall bucket_name ∈ (sweepBucket env bucket_name).2 ∧
    (env.deleteBucket bucket_name = Except.ok () →
      (sweepBucket env bucket_name).1 =
        { type := "s3_bucket", name := bucket_name, status := "deleted", error := none }) ∧
    (∀ env2 : AwsEnv, env2.deleteBucket = env.deleteBucket →
      (sweepBucket env2 bucket_name).1 = (sweepBucket env bucket_name).1) := by
  refine ⟨?_, ?_, ?_⟩
  · cases h : env.deleteBucket bucket_name <;> simp [sweepBucket, h]
  · intro h
    simp [sweepBucket, h]
  · intro env2 h2
    simp only [sweepBucket, h2]
    cases h : env.deleteBucket bucket_name <;> simp [h]

/-- C7 witness: in envObjFail the object listing for p-bucket raises, yet the
bucket delete succeeds and the recorded outcome is 'deleted'. -/
theorem bucket_two_phase_witness :
    isErr (envObjFail.listObjects "p-bucket") = true ∧
    envObjFail.deleteBucket "p-bucket" = Except.ok () ∧
    (sweepBucket envObjFail "p-bucket").1 =
      { type := "s3_bucket", name := "p-bucket", status := "deleted", error := none } :=
  ⟨rfl, rfl, (bucket_two_phase envObjFail "p-bucket").2.1 rfl⟩

/-- C8 counterexample: a headers map whose only entry is the capitalization
X-Api-Key — neither of the two literal spellings the source reads — carries
the non-empty value secret, yet authorize answers isAuthorized = false,
refuting the claimed case-insensitive header lookup. -/
theorem authorize_case_cex :
    (authorize_headers [("X-Api-Key", "secret")]).isAuthorized = false ∧
    ("secret" ≠ "") := by
  decide

/-- C8 amended: authorize returns isAuthorized = true exactly when the
headers map binds the literal key x-api-key to a non-empty value or binds
the literal key X-API-Key to a non-empty value; no other capitalization of
the header name is consulted. -/
theorem authorize_exact_spellings (headers : List (String × String)) :
    (authorize_headers headers).isAuthorized = true ↔
      ((∃ v, headers.lookup "x-api-key" = some v ∧ v ≠ "") ∨
       (∃ v, headers.lookup "X-API-Key" = some v ∧ v ≠ "")) := by
  unfold authorize_headers pyOrStr
  cases ha : headers.lookup "x-api-key" with
  | none =>
    cases hb : headers.lookup "X-API-Key" with
    | none => simp
    | some w => simp [string_length_pos_iff]
  | some v =>
    by_cases hv : v = ""
    · subst hv
      cases hb : headers.lookup "X-API-Key" with
      | none => simp
      | some w => simp [string_length_pos_iff]
    · simp [hv, string_length_pos_iff]

/-- C10: the gatekeeper handler is total and fail-closed: on every event it
returns a response with a boolean isAuthorized and a one-entry context map;
when the headers value is malformed (the case in which the source's header
reads raise and the catch-all fires) it answers isAuthorized = false, and
with no headers key at all it also answers false. -/
theorem authorizer_total_fail_closed (ev : AuthEvent) :
    ((authorizer_lambda_handler ev).isAuthorized = true ∨
      (authorizer_lambda_handler ev).isAuthorized = false) ∧
    (authorizer_lambda_handler ev).context.length = 1 ∧
    (∀ d, ev.headers = some (HeadersVal.malformed d) →
      (authorizer_lambda_handler ev).isAuthorized = false) ∧
    (ev.headers = none → (authorizer_lambda_handler ev).isAuthorized = false) := by
  refine ⟨?_, ?_, ?_, ?_⟩
  · cases (authorizer_lambda_handler ev).isAuthorized
    · right; rfl
    · left; rfl
  · rcases ev with ⟨h⟩
    rcases h with _ | hv
    · simp [authorizer_lambda_handler, authorizer_body, authorize_headers]
    · rcases hv with m | d <;>
        simp [authorizer_lambda_handler, authorizer_body, authorize_headers]
  · intro d hd
    simp [authorizer_lambda_handler, authorizer_body, hd]
  · intro h
    simp [authorizer_lambda_handler, authorizer_body, h, authorize_headers, pyOrStr]

/-- C10 witness: an event whose headers value is not a dict (so the header
reads raise) is answered with isAuthorized = false, and an event without a
headers key likewise. -/
theorem authorizer_total_fail_closed_witness :
    (authorizer_lambda_handler
      { headers := some (HeadersVal.malformed "AttributeError: list has no get") }).isAuthorized
        = false ∧
    (authorizer_lambda_handler { headers := none }).isAuthorized = false :=
  ⟨(authorizer_total_fail_closed _).2.2.1 "AttributeError: list has no get" rfl,
   (authorizer_total_fail_closed _).2.2.2 rfl⟩

/-- C9: for every event shape, once the audit table is configured and the
record-store write succeeds, the event processor never rejects the event: it
writes exactly one record, that record carries the freshly generated
identifier and an expiry of the current epoch second plus 90*24*60*60, and
the handler returns statusCode 200 with that identifier as eventId. -/
theorem audit_writer_accepts (env : AuditEnv) (detail_type source : Option String)
    (detail_json : String) (t : String)
    (htable : env.audit_table_name = some t) (ht : t ≠ "")
    (hput : env.put_item (audit_entry_of env detail_type source detail_json) = Except.ok ()) :
    event_processor_handler env detail_type source detail_json =
      ((200, AuditBody.success "Event processed successfully" env.fresh_uuid),
       [audit_entry_of env detail_type source detail_json]) ∧
    (audit_entry_of env detail_type source detail_json).event_id = env.fresh_uuid ∧
    (audit_entry_of env detail_type source detail_json).ttl =
      env.now_epoch + 90 * 24 * 60 * 60 := by
  refine ⟨?_, rfl, rfl⟩
  simp only [audit_entry_of] at hput
  have h9 : (90 * 24 * 60 * 60 : Int) = 7776000 := by norm_num
  rw [h9] at hput
  simp [event_processor_handler, htable, ht, hput, audit_entry_of]

/-- C9 witness: in envAuditW, with a concrete event detail, the processor
returns 200 with the fresh identifier and writes the one entry whose ttl is
the epoch second plus 90 days. -/
theorem audit_writer_accepts_witness :
    (envAuditW.audit_table_name = some "audit-table") ∧
    ("audit-table" ≠ "") ∧
    (envAuditW.put_item
      (audit_entry_of envAuditW (some "OrderPlaced") (some "orders.api") "null") = Except.ok ()) ∧
    event_processor_handler envAuditW (some "OrderPlaced") (some "orders.api") "null" =
      ((200, AuditBody.success "Event processed successfully"
          "00000000-0000-4000-8000-000000000000"),
       [audit_entry_of envAuditW (some "OrderPlaced") (some "orders.api") "null"]) ∧
    (audit_entry_of envAuditW (some "OrderPlaced") (some "orders.api") "null").ttl =
      1760227200 + 90 * 24 * 60 * 60 := by
  have h := audit_writer_accepts envAuditW (some "OrderPlaced") (some "orders.api") "null"
    "audit-table" rfl (by decide) rfl
  exact ⟨rfl, by decide, rfl, h.1, h.2.2⟩
